import Mathlib

/-!
Verification of the expense-tracker service layer
(`internal/expenses/expense_service.go` and the in-memory reference
repository used by its tests) against the repository's specification.

The Go code is shallowly embedded: `time.Time` values become explicit
UTC civil date-times, `int`/`int64` become `Int`, Go maps become
association lists, and every fallible operation returns `Except`.
-/

/-- Decidable equality for `Except`, so concrete service results can be
checked by `decide`. -/
instance {ε : Type u} {α : Type v} [DecidableEq ε] [DecidableEq α] :
    DecidableEq (Except ε α) := fun a b =>
  match a, b with
  | .error x, .error y => decidable_of_iff (x = y) (by simp)
  | .ok x, .ok y => decidable_of_iff (x = y) (by simp)
  | .error _, .ok _ => isFalse (by simp)
  | .ok _, .error _ => isFalse (by simp)

/-- A UTC civil date-time, standing for a Go `time.Time` instant.
All operations the service performs on times (`Year()`, `Month()`,
`After`, construction via `time.Date` in UTC) are functions of these
six fields. -/
structure GoTime where
  year : Int
  month : Int
  day : Int
  hour : Int
  minute : Int
  second : Int
deriving DecidableEq, Repr

/-- `time.Unix(0, 0)`: the Unix epoch, 1970-01-01T00:00:00Z. -/
def unixEpoch : GoTime := ⟨1970, 1, 1, 0, 0, 0⟩

/-- The zero `time.Time` value in Go: January 1 of year 1, 00:00:00 UTC. -/
def goTimeZero : GoTime := ⟨1, 1, 1, 0, 0, 0⟩

/-- `a.After(b)` on instants: strict lexicographic comparison of the
civil fields (valid for UTC civil date-times, where field order agrees
with instant order). -/
def goTimeAfter (a b : GoTime) : Bool :=
  if a.year ≠ b.year then b.year < a.year
  else if a.month ≠ b.month then b.month < a.month
  else if a.day ≠ b.day then b.day < a.day
  else if a.hour ≠ b.hour then b.hour < a.hour
  else if a.minute ≠ b.minute then b.minute < a.minute
  else b.second < a.second

/-- The `Expense` record (`internal/expenses/expense.go`). -/
structure Expense where
  id : Int
  amount : Int
  expenseOccuredAt : GoTime
  recordCreatedAt : GoTime
  description : String
deriving DecidableEq, Repr

/-- The `ExpenseSummary` record: a label for the summarized time range
and the summed total. -/
structure ExpenseSummary where
  summaryTimeRange : String
  total : Int
deriving DecidableEq, Repr

/-- The error values that can flow out of the service layer.  Each
constructor stands for one distinguishable Go error value.
`unusedID` (`expenses.ErrUnusedID`) and `invalidTimeRange`
(`expenses.ErrInvalidTime`) are modelled from the spec: both are
referenced by the handlers and the service tests respectively, but
neither is declared nor produced anywhere under the service source. -/
inductive ServiceError where
  /-- `ErrInvalidDescription` -/
  | invalidDescription
  /-- `ErrInvalidAmount` -/
  | invalidAmount
  /-- `ErrInvalidOccuredAtTime` -/
  | invalidOccuredAt
  /-- `ErrInvalidID` -/
  | invalidID
  /-- `fmt.Errorf("could not parse custom month: %q", str)` -/
  | parseCustomMonth (s : String)
  /-- the error returned by `strconv.Atoi` on a malformed number -/
  | atoiSyntax (s : String)
  /-- `sqlite.QueryError` wrapping `sql.ErrNoRows` (repository not-found) -/
  | repoQueryNoRows
  /-- `sqlite.ErrNilPointer` -/
  | nilPointer
  /-- `sqlite.ErrNoRowsUpdated` -/
  | noRowsUpdated
  /-- `sqlite.ErrNoRowsDeleted` -/
  | noRowsDeleted
  /-- Modelled from the spec: the distinct `UnknownID` kind
  (`expenses.ErrUnusedID`), referenced by the handler callers but not
  declared in the service source. -/
  | unusedID
  /-- Modelled from the spec: `InvalidTimeRange{providedValue}`
  (`expenses.ErrInvalidTime`), expected by the service tests but not
  declared in the service source. -/
  | invalidTimeRange (providedValue : String)
deriving DecidableEq, Repr

/-- `checkDescription`: an expense description must be non-empty. -/
def checkDescription (description : String) : Option ServiceError :=
  if description = "" then some .invalidDescription else none

/-- `checkAmount`: an expense amount must be greater than 0. -/
def checkAmount (amount : Int) : Option ServiceError :=
  if amount ≤ 0 then some .invalidAmount else none

/-- `checkOccuredAt`: an expense time must be strictly after the Unix
epoch. -/
def checkOccuredAt (occ : GoTime) : Option ServiceError :=
  if goTimeAfter occ unixEpoch then none else some .invalidOccuredAt

/-- Digits of a decimal string, most significant first; `none` if the
list is empty or holds a non-digit. -/
def digitsToNat : List Char → Option Nat
  | [] => none
  | cs => cs.foldlM (fun acc c =>
      if '0' ≤ c ∧ c ≤ '9' then some (acc * 10 + (c.toNat - '0'.toNat)) else none) 0

/-- `strconv.Atoi`: optional sign, decimal digits, 64-bit range check.
On failure the original string is carried in the error. -/
def goAtoi (s : String) : Except ServiceError Int :=
  let signed : Option Int :=
    match s.data with
    | '+' :: rest => (digitsToNat rest).map (fun n => (n : Int))
    | '-' :: rest => (digitsToNat rest).map (fun n => -(n : Int))
    | cs => (digitsToNat cs).map (fun n => (n : Int))
  match signed with
  | none => .error (.atoiSyntax s)
  | some v =>
    if v < -(2 ^ 63) ∨ 2 ^ 63 - 1 < v then .error (.atoiSyntax s)
    else .ok v

/-- Split a character list at the first `'-'`; `none` when absent. -/
def cutDashList : List Char → Option (List Char × List Char)
  | [] => none
  | c :: rest =>
    if c = '-' then some ([], rest)
    else (cutDashList rest).map (fun p => (c :: p.1, p.2))

/-- `strings.Cut(str, "-")`: the part before the first `"-"`, the part
after it, and whether it was found. -/
def cutDash (s : String) : Option (String × String) :=
  (cutDashList s.data).map (fun p => (String.mk p.1, String.mk p.2))

/-- `time.Month.String()` for a month number. -/
def monthName (m : Int) : String :=
  if m = 1 then "January"
  else if m = 2 then "February"
  else if m = 3 then "March"
  else if m = 4 then "April"
  else if m = 5 then "May"
  else if m = 6 then "June"
  else if m = 7 then "July"
  else if m = 8 then "August"
  else if m = 9 then "September"
  else if m = 10 then "October"
  else if m = 11 then "November"
  else if m = 12 then "December"
  else "%!Month(" ++ toString m ++ ")"

/-- `time.Date(year, month, day, hour, min, sec, 0, time.UTC)` as used
by the service: an out-of-range month is normalized into the year
exactly as Go's `norm` does (floor division); the service only ever
passes `day = 1` and zero clock fields, which need no normalization. -/
def goDate (year month day hour minute second : Int) : GoTime :=
  let m := month - 1
  ⟨year + m.fdiv 12, m.emod 12 + 1, day, hour, minute, second⟩

/-- `isWrongMonth`: true when the two times differ in year or month. -/
def isWrongMonth (timeA timeB : GoTime) : Bool :=
  timeA.year ≠ timeB.year ∨ timeA.month ≠ timeB.month

/-- `isWrongYear`: true when the two times differ in year. -/
def isWrongYear (timeA timeB : GoTime) : Bool :=
  timeA.year ≠ timeB.year

/-- `makeCustomMonth`: cut the modifier at `"-"`, parse both parts with
`Atoi`, and build the first-of-month date.  Note the source binds the
part before the hyphen to `monthStr` and the part after it to
`yearStr`. -/
def makeCustomMonth (str : String) : Except ServiceError GoTime :=
  match cutDash str with
  | none => .error (.parseCustomMonth str)
  | some (monthStr, yearStr) =>
    match goAtoi monthStr with
    | .error e => .error e
    | .ok month =>
      match goAtoi yearStr with
      | .error e => .error e
      | .ok year => .ok (goDate year month 1 0 0 0)

/-- `makeCustomYear`: parse the modifier as a year and build January 1
of that year. -/
def makeCustomYear (str : String) : Except ServiceError GoTime :=
  match goAtoi str with
  | .error e => .error e
  | .ok year => .ok (goDate year 1 1 0 0 0)

/-- `SummaryTimeRange` constant `AllExpenses` (iota 0). -/
def AllExpenses : Int := 0

/-- `SummaryTimeRange` constant `ThisMonth` (iota 1). -/
def ThisMonth : Int := 1

/-- `SummaryTimeRange` constant `CustomMonth` (iota 2). -/
def CustomMonth : Int := 2

/-- `SummaryTimeRange` constant `ThisYear` (iota 3). -/
def ThisYear : Int := 3

/-- `SummaryTimeRange` constant `CustomYear` (iota 4). -/
def CustomYear : Int := 4

/-- `SummaryTimeRange` constant `CustomYearMonthRange` (iota 5). -/
def CustomYearMonthRange : Int := 5

/-- `slices.DeleteFunc`: remove the elements satisfying the predicate,
keeping order. -/
def deleteFunc (exps : List Expense) (p : Expense → Bool) : List Expense :=
  exps.filter (fun e => !(p e))

/-- The summation loop of `SummarizeExpenses`: `expenseSum += exp.Amount`. -/
def sumAmounts (exps : List Expense) : Int :=
  exps.foldl (fun acc e => acc + e.amount) 0

/-- The `switch kind` of `SummarizeExpenses`: produce the range label
and the filtered slice, or the error of a custom month or year parse.
`kind` carries Go's `int`-backed `SummaryTimeRange`; the switch has no
default case, so any unhandled value leaves the label at its zero value
and the slice unfiltered (`CustomYearMonthRange` only logs). -/
def summarizeSwitch (now : GoTime) (exps : List Expense) (kind : Int)
    (modifier : String) : Except ServiceError (String × List Expense) :=
  if kind = AllExpenses then
    .ok ("", exps)
  else if kind = ThisMonth then
    .ok ("This Month", deleteFunc exps (fun exp => isWrongMonth exp.expenseOccuredAt now))
  else if kind = CustomMonth then
    match makeCustomMonth modifier with
    | .error e => .error e
    | .ok customMonth =>
      .ok ("Custom Month: " ++ monthName customMonth.month ++ " of " ++ toString customMonth.year,
        deleteFunc exps (fun exp => isWrongMonth exp.expenseOccuredAt customMonth))
  else if kind = ThisYear then
    .ok ("This Year", deleteFunc exps (fun exp => isWrongMonth exp.expenseOccuredAt now))
  else if kind = CustomYear then
    match makeCustomYear modifier with
    | .error e => .error e
    | .ok customYear =>
      .ok ("Custom Year: " ++ toString customYear.year,
        deleteFunc exps (fun exp => isWrongYear exp.expenseOccuredAt customYear))
  else
    .ok ("", exps)

/-- `SummarizeExpenses` after its `GetAll` call: filter per the switch,
then sum the remaining amounts into the summary. -/
def summarizeExpenses (now : GoTime) (exps : List Expense) (kind : Int)
    (modifier : String) : Except ServiceError ExpenseSummary :=
  match summarizeSwitch now exps kind modifier with
  | .error e => .error e
  | .ok (label, filtered) => .ok ⟨label, sumAmounts filtered⟩

/-- The state of the in-memory reference repository (`mockRepository`):
the last assigned id and the map from id to record, as an association
list with unique keys. -/
structure RepoState where
  lastID : Int
  db : List (Int × Expense)
deriving DecidableEq, Repr

/-- Lookup in the id map (`r.db[id]`). -/
def mapLookup (k : Int) : List (Int × Expense) → Option Expense
  | [] => none
  | (k', v') :: rest => if k' = k then some v' else mapLookup k rest

/-- Map assignment (`r.db[id] = exp`): replace the binding if the key
is present, otherwise add it. -/
def mapInsert (k : Int) (v : Expense) : List (Int × Expense) → List (Int × Expense)
  | [] => [(k, v)]
  | (k', v') :: rest => if k' = k then (k, v) :: rest else (k', v') :: mapInsert k v rest

/-- Map deletion (`delete(r.db, id)`). -/
def mapErase (k : Int) : List (Int × Expense) → List (Int × Expense)
  | [] => []
  | (k', v') :: rest => if k' = k then rest else (k', v') :: mapErase k rest

/-- `mockRepository.GetByID`: look the record up in the map, or fail
with the query error wrapping `sql.ErrNoRows`. -/
def repoGetByID (s : RepoState) (id : Int) : Except ServiceError Expense × RepoState :=
  match mapLookup id s.db with
  | none => (.error .repoQueryNoRows, s)
  | some record => (.ok record, s)

/-- `mockRepository.GetAll`: fail when no record was ever created, else
collect the records present at indices `0 ≤ i < lastID` in ascending
order (the source's `for i := range r.lastID`, which never reads index
`lastID` itself). -/
def repoGetAll (s : RepoState) : Except ServiceError (List Expense) × RepoState :=
  if s.lastID = 0 then (.error .repoQueryNoRows, s)
  else (.ok ((List.range s.lastID.toNat).filterMap (fun i => mapLookup (Int.ofNat i) s.db)), s)

/-- `mockRepository.Create`: assign `lastID + 1` as the new id, stamp
the creation time, and insert the record. -/
def repoCreate (s : RepoState) (now : GoTime) (exp : Expense) : Except ServiceError Expense × RepoState :=
  let newID := s.lastID + 1
  let stored := { exp with id := newID, recordCreatedAt := now }
  (.ok stored, ⟨newID, mapInsert newID stored s.db⟩)

/-- `mockRepository.Update`: replace the record when its id exists,
else fail with `ErrNoRowsUpdated`. -/
def repoUpdate (s : RepoState) (exp : Expense) : Except ServiceError Unit × RepoState :=
  match mapLookup exp.id s.db with
  | none => (.error .noRowsUpdated, s)
  | some _ => (.ok (), ⟨s.lastID, mapInsert exp.id exp s.db⟩)

/-- `mockRepository.Delete`: remove the record when its id exists, else
fail with `ErrNoRowsDeleted`. -/
def repoDelete (s : RepoState) (id : Int) : Except ServiceError Unit × RepoState :=
  match mapLookup id s.db with
  | some _ =>
    if s.lastID = 0 then (.error .noRowsDeleted, s)
    else (.ok (), ⟨s.lastID, mapErase id s.db⟩)
  | none => (.error .noRowsDeleted, s)

/-- `Service.NewExpense`: validate description, amount, and occurrence
time in that order, then delegate to the repository `Create` (the Go
literal leaves `ID` and `RecordCreatedAt` at their zero values). -/
def NewExpense (s : RepoState) (now occuredAt : GoTime) (description : String)
    (amount : Int) : Except ServiceError Expense × RepoState :=
  match checkDescription description with
  | some e => (.error e, s)
  | none =>
  match checkAmount amount with
  | some e => (.error e, s)
  | none =>
  match checkOccuredAt occuredAt with
  | some e => (.error e, s)
  | none =>
    repoCreate s now ⟨0, amount, occuredAt, goTimeZero, description⟩

/-- `Service.GetExpenseByID`: reject non-positive ids, else delegate to
the repository and propagate its result unchanged. -/
def GetExpenseByID (s : RepoState) (id : Int) : Except ServiceError Expense × RepoState :=
  if id ≤ 0 then (.error .invalidID, s)
  else repoGetByID s id

/-- `Service.UpdateExpense`: reject non-positive ids, validate the
fields in the same order as creation, then delegate to the repository
`Update` and propagate its result unchanged. -/
def UpdateExpense (s : RepoState) (id : Int) (occuredAt : GoTime)
    (description : String) (amount : Int) : Except ServiceError Unit × RepoState :=
  if id ≤ 0 then (.error .invalidID, s)
  else
  match checkDescription description with
  | some e => (.error e, s)
  | none =>
  match checkAmount amount with
  | some e => (.error e, s)
  | none =>
  match checkOccuredAt occuredAt with
  | some e => (.error e, s)
  | none =>
    repoUpdate s ⟨id, amount, occuredAt, goTimeZero, description⟩

/-- `Service.DeleteExpense`: reject non-positive ids, else delegate to
the repository `Delete` and propagate its result unchanged. -/
def DeleteExpense (s : RepoState) (id : Int) : Except ServiceError Unit × RepoState :=
  if id ≤ 0 then (.error .invalidID, s)
  else repoDelete s id

/-- `Service.SummarizeExpenses`: fetch every record through the
repository `GetAll`, then filter and sum per the requested range kind.
`now` stands for `time.Now().UTC()`. -/
def SummarizeExpenses (s : RepoState) (now : GoTime) (kind : Int)
    (modifier : String) : Except ServiceError ExpenseSummary × RepoState :=
  match repoGetAll s with
  | (.error e, s1) => (.error e, s1)
  | (.ok exps, s1) => (summarizeExpenses now exps kind modifier, s1)

/-- A concrete current time for evaluation: 2025-10-15T12:00:00Z. -/
def nowOct2025 : GoTime := ⟨2025, 10, 15, 12, 0, 0⟩

/-- A concrete occurrence time: 2025-10-15T00:00:00Z. -/
def tOct2025 : GoTime := ⟨2025, 10, 15, 0, 0, 0⟩

/-- A concrete occurrence time: 2025-09-15T00:00:00Z. -/
def tSep2025 : GoTime := ⟨2025, 9, 15, 0, 0, 0⟩

/-- A concrete occurrence time: 2025-03-10T00:00:00Z. -/
def tMar2025 : GoTime := ⟨2025, 3, 10, 0, 0, 0⟩

/-- A stored record dated October 2025. -/
def expOct : Expense := ⟨1, 1999, tOct2025, goTimeZero, "october expense"⟩

/-- A stored record dated September 2025. -/
def expSep : Expense := ⟨2, 28089, tSep2025, goTimeZero, "september expense"⟩

/-- A stored record dated March 2025. -/
def expMar : Expense := ⟨1, 500, tMar2025, goTimeZero, "march expense"⟩

/-- The freshly constructed repository: no ids assigned, empty map. -/
def emptyRepo : RepoState := ⟨0, []⟩

/-- Claim C1 (code bug): on the spec's own fixture — one October-2025
record and one September-2025 record — `SummarizeExpenses` with kind
`CustomMonth` and modifier `"2025-10"` does not keep the October-2025
records.  `makeCustomMonth` binds the part of the modifier before the
hyphen to the month and the part after it to the year, so `"2025-10"`
parses as month 2025 of year 10, which Go's date normalization turns
into September of year 178: the filter keeps nothing (total 0 instead
of the October amount) and the label reads `"Custom Month: September
of 178"` instead of `"Custom Month: October of 2025"`. -/
theorem customMonth_2025_10_misparsed :
    summarizeExpenses nowOct2025 [expOct, expSep] CustomMonth "2025-10"
      = .ok ⟨"Custom Month: September of 178", 0⟩ ∧
    "Custom Month: September of 178" ≠ "Custom Month: October of 2025" ∧
    sumAmounts [expOct] = 1999 := by
  refine ⟨by decide, by decide, by decide⟩

/-- Claim C2 (code bug): `SummarizeExpenses` never fails with an
`InvalidTimeRange` error.  `makeCustomMonth` performs no `1..12` month
check and `makeCustomMonth`/`makeCustomYear` perform no epoch check, so
the modifier `"2025-13"` (month out of range per the claim) and the
modifier `"1969"` for `CustomYear` (pre-epoch per the claim) both
succeed and return a summary instead of the
`InvalidTimeRange{providedValue}` failure the claim requires. -/
theorem invalid_modifiers_not_rejected :
    summarizeExpenses nowOct2025 [] CustomMonth "2025-13"
      = .ok ⟨"Custom Month: September of 181", 0⟩ ∧
    summarizeExpenses nowOct2025 [] CustomYear "1969"
      = .ok ⟨"Custom Year: 1969", 0⟩ := by
  refine ⟨by decide, by decide⟩

/-- Claim C3 (code bug): `SummarizeExpenses` with kind `ThisYear` does
not keep every record of the current calendar year: the `ThisYear`
branch filters with `isWrongMonth` (year and month must both match)
rather than `isWrongYear`, so a March-2025 record is dropped when the
current time is October 2025 and the total is 0 instead of the
record's amount. -/
theorem thisYear_filters_by_month :
    expMar.expenseOccuredAt.year = nowOct2025.year ∧
    expMar.expenseOccuredAt.month ≠ nowOct2025.month ∧
    summarizeExpenses nowOct2025 [expMar] ThisYear ""
      = .ok ⟨"This Year", 0⟩ ∧
    sumAmounts [expMar] = 500 := by
  refine ⟨by decide, by decide, by decide, by decide⟩

/-- Claim C4, counterexample: with kind `AllExpenses` the summary's
range label is the zero-value empty string — the `AllExpenses` switch
case sets no label — not the fixed `"All Expenses"` string the claim
states. -/
theorem allTime_label_counterexample :
    summarizeExpenses nowOct2025 [expOct] AllExpenses "" = .ok ⟨"", 1999⟩ ∧
    (ExpenseSummary.mk "" 1999).summaryTimeRange ≠ "All Expenses" := by
  refine ⟨by decide, by decide⟩

/-- Claim C4, amended: for every fetched set of expenses (and any
current time and modifier), `SummarizeExpenses` with kind `AllExpenses`
applies no filtering and returns the sum of all stored amounts (0 when
the set is empty) under an empty range label. -/
theorem allTime_sums_everything (now : GoTime) (exps : List Expense) (modifier : String) :
    summarizeExpenses now exps AllExpenses modifier = .ok ⟨"", sumAmounts exps⟩ := by
  rfl

/-- Claim C5, counterexample: an amount `≤ 0` does not always surface
`InvalidAmount` — the description is checked first, so an empty
description together with amount `-1` fails with `InvalidDescription`
instead. -/
theorem newExpense_empty_description_wins :
    (NewExpense emptyRepo nowOct2025 tOct2025 "" (-1)).1
      = .error .invalidDescription ∧
    ServiceError.invalidDescription ≠ .invalidAmount := by
  refine ⟨by decide, by decide⟩

/-- Claim C5, amended: for every amount `≤ 0` and every non-empty
description (and any occurrence time), `NewExpense` fails with
`InvalidAmount` and leaves the repository state unchanged — the
repository `Create` is never reached. -/
theorem newExpense_rejects_nonpositive_amount (s : RepoState)
    (now occuredAt : GoTime) (description : String) (amount : Int)
    (hd : description ≠ "") (ha : amount ≤ 0) :
    NewExpense s now occuredAt description amount = (.error .invalidAmount, s) := by
  simp [NewExpense, checkDescription, checkAmount, hd, ha]

/-- Witness for the amended claim C5 at a concrete input. -/
theorem newExpense_rejects_nonpositive_amount_witness :
    NewExpense emptyRepo nowOct2025 tOct2025 "coffee" 0
      = (.error .invalidAmount, emptyRepo) :=
  newExpense_rejects_nonpositive_amount emptyRepo nowOct2025 tOct2025 "coffee" 0
    (by decide) (by decide)

/-- Claim C6: when an input to `NewExpense` or `UpdateExpense` (with a
valid id) violates more than one field-validation rule, exactly one
error is returned, chosen by checking the description first, then the
amount, then the occurrence time — identically for both operations. -/
theorem validation_order_first_failure (s : RepoState) (now occuredAt : GoTime)
    (description : String) (amount : Int) (id : Int) (hid : 0 < id)
    (hmulti : (description = "" ∧ amount ≤ 0) ∨
      (description = "" ∧ goTimeAfter occuredAt unixEpoch = false) ∨
      (amount ≤ 0 ∧ goTimeAfter occuredAt unixEpoch = false)) :
    ∃ e : ServiceError,
      (NewExpense s now occuredAt description amount).1 = .error e ∧
      (UpdateExpense s id occuredAt description amount).1 = .error e ∧
      e = (if description = "" then .invalidDescription
        else if amount ≤ 0 then .invalidAmount
        else .invalidOccuredAt) := by
  have hid' : ¬ id ≤ 0 := not_le.mpr hid
  by_cases hd : description = ""
  · exact ⟨.invalidDescription,
      by simp [NewExpense, checkDescription, hd],
      by simp [UpdateExpense, checkDescription, hd, hid'],
      by simp [hd]⟩
  · have ha : amount ≤ 0 := by
      rcases hmulti with ⟨h, _⟩ | ⟨h, _⟩ | ⟨h, _⟩
      · exact absurd h hd
      · exact absurd h hd
      · exact h
    exact ⟨.invalidAmount,
      by simp [NewExpense, checkDescription, checkAmount, hd, ha],
      by simp [UpdateExpense, checkDescription, checkAmount, hd, ha, hid'],
      by simp [hd, ha]⟩

/-- Witness for claim C6: empty description together with a zero
amount yields `InvalidDescription` from both operations. -/
theorem validation_order_first_failure_witness :
    ∃ e : ServiceError,
      (NewExpense emptyRepo nowOct2025 tOct2025 "" 0).1 = .error e ∧
      (UpdateExpense emptyRepo 1 tOct2025 "" 0).1 = .error e ∧
      e = (if ("" : String) = "" then ServiceError.invalidDescription
        else if (0 : Int) ≤ 0 then .invalidAmount
        else .invalidOccuredAt) :=
  validation_order_first_failure emptyRepo nowOct2025 tOct2025 "" 0 1
    (by decide) (Or.inl ⟨rfl, by decide⟩)

/-- Claim C7 (code bug): a non-positive id does fail with `InvalidID`
before the repository is consulted, but a valid-but-nonexistent id is
not translated into the distinct `UnknownID` kind: the service methods
propagate the repository's own errors unchanged — the wrapped
`sql.ErrNoRows` query error from `GetByID`, `ErrNoRowsUpdated` from
`Update`, and `ErrNoRowsDeleted` from `Delete` — none of which is the
`ErrUnusedID` value the handler callers test for. -/
theorem notFound_errors_not_translated :
    (GetExpenseByID emptyRepo 0).1 = .error .invalidID ∧
    (GetExpenseByID emptyRepo 1).1 = .error .repoQueryNoRows ∧
    (UpdateExpense emptyRepo 1 tOct2025 "coffee beans" 5).1 = .error .noRowsUpdated ∧
    (DeleteExpense emptyRepo 1).1 = .error .noRowsDeleted ∧
    ServiceError.repoQueryNoRows ≠ .unusedID ∧
    ServiceError.noRowsUpdated ≠ .unusedID ∧
    ServiceError.noRowsDeleted ≠ .unusedID := by
  refine ⟨by decide, by decide, by decide, by decide, by decide, by decide, by decide⟩

/-- `r.db[id]` immediately after `r.db[id] = exp` yields `exp`. -/
theorem mapLookup_mapInsert_self (k : Int) (v : Expense) (m : List (Int × Expense)) :
    mapLookup k (mapInsert k v m) = some v := by
  induction m with
  | nil => simp [mapInsert, mapLookup]
  | cons p rest ih =>
    by_cases h : p.1 = k
    · simp [mapInsert, mapLookup, h]
    · simp [mapInsert, mapLookup, h, ih]

/-- Claim C8: from any reachable repository state (non-negative
`lastID`), creating an expense from a valid input triple and fetching
it back by the returned record's id yields a record whose amount,
occurrence time, and description equal the inputs, with a non-zero
assigned id. -/
theorem create_then_get_roundtrip (s : RepoState) (now occuredAt : GoTime)
    (description : String) (amount : Int) (hlast : 0 ≤ s.lastID)
    (hd : description ≠ "") (ha : 0 < amount)
    (hocc : goTimeAfter occuredAt unixEpoch = true) :
    ∃ (exp : Expense) (s' : RepoState),
      NewExpense s now occuredAt description amount = (.ok exp, s') ∧
      exp.id ≠ 0 ∧ exp.amount = amount ∧
      exp.expenseOccuredAt = occuredAt ∧ exp.description = description ∧
      (GetExpenseByID s' exp.id).1 = .ok exp := by
  have ha' : ¬ amount ≤ 0 := not_le.mpr ha
  have hnz : s.lastID + 1 ≠ 0 := by omega
  have hpos : ¬ s.lastID + 1 ≤ 0 := by omega
  refine ⟨⟨s.lastID + 1, amount, occuredAt, now, description⟩,
    ⟨s.lastID + 1, mapInsert (s.lastID + 1)
      ⟨s.lastID + 1, amount, occuredAt, now, description⟩ s.db⟩, ?_, hnz, rfl, rfl, rfl, ?_⟩
  · simp [NewExpense, checkDescription, checkAmount, checkOccuredAt, repoCreate,
      hd, ha', hocc]
  · simp [GetExpenseByID, repoGetByID, hpos, mapLookup_mapInsert_self]

/-- Witness for claim C8 at a concrete valid input on the fresh
repository. -/
theorem create_then_get_roundtrip_witness :
    ∃ (exp : Expense) (s' : RepoState),
      NewExpense emptyRepo nowOct2025 tOct2025 "coffee" 100 = (.ok exp, s') ∧
      exp.id ≠ 0 ∧ exp.amount = 100 ∧
      exp.expenseOccuredAt = tOct2025 ∧ exp.description = "coffee" ∧
      (GetExpenseByID s' exp.id).1 = .ok exp :=
  create_then_get_roundtrip emptyRepo nowOct2025 tOct2025 "coffee" 100
    (by decide) (by decide) (by decide) (by decide)

/-- Claim C9: for every repository state, range kind, and modifier,
`SummarizeExpenses` leaves the stored record set unchanged — its only
repository interaction is the read-only `GetAll`, so the state after
the call equals the state before it. -/
theorem summarize_preserves_state (s : RepoState) (now : GoTime)
    (kind : Int) (modifier : String) :
    (SummarizeExpenses s now kind modifier).2 = s := by
  by_cases h : s.lastID = 0 <;> simp [SummarizeExpenses, repoGetAll, h]

/-- Claim C10: for every kind value outside the five handled cases —
including the declared `CustomYearMonthRange` and any integer outside
the enumeration — the switch has no default case, so `SummarizeExpenses`
returns no error: the modifier is ignored, no filtering is applied, and
the result is a summary with an empty range label and the sum of all
stored amounts. -/
theorem summarize_unknown_kind (now : GoTime) (exps : List Expense)
    (kind : Int) (modifier : String)
    (h0 : kind ≠ AllExpenses) (h1 : kind ≠ ThisMonth) (h2 : kind ≠ CustomMonth)
    (h3 : kind ≠ ThisYear) (h4 : kind ≠ CustomYear) :
    summarizeExpenses now exps kind modifier = .ok ⟨"", sumAmounts exps⟩ := by
  simp [summarizeExpenses, summarizeSwitch, h0, h1, h2, h3, h4]

/-- Witness for claim C10 at the declared-but-unimplemented
`CustomYearMonthRange` kind. -/
theorem summarize_unknown_kind_witness :
    summarizeExpenses nowOct2025 [expOct] CustomYearMonthRange "2023-09,2024-09"
      = .ok ⟨"", 1999⟩ :=
  (summarize_unknown_kind nowOct2025 [expOct] CustomYearMonthRange "2023-09,2024-09"
    (by decide) (by decide) (by decide) (by decide) (by decide)).trans (by decide)
